import Mathlib

/-!
Shallow embedding of the request/retry client (`APIManager` / `APIError`)
and of `LanguageManager` from `src/static/app.js` of the LawBuddy (MyVakeel)
repository, together with theorems settling the frozen claims about them.

Platform primitives (the JS runtime itself) are modelled once and used by the
embedded code: `JValue` models a JSON value (JSON numbers are modelled as
integers; no claim involves fractional numbers), `truthy` models JS
truthiness, `jsToString` models JS string coercion, and the outcome of each
`fetch` call is supplied by an environment `Nat → FetchOutcome` giving the
outcome of the n-th attempt, since the network is external to the program.
-/

namespace LawBuddy

mutual

/-- Model of a JSON value (result of the JS JSON.parse). Numbers are
modelled as integers; no claim involves fractional payloads. Arrays and
objects carry their own list types so that recursion over a value is
structural. -/
inductive JValue where
  | null
  | bool (b : Bool)
  | num (n : Int)
  | str (s : String)
  | arr (elems : JArray)
  | obj (fields : JObject)

/-- The element list of a JSON array. -/
inductive JArray where
  | nil
  | cons (head : JValue) (tail : JArray)

/-- The field list of a JSON object; a parsed JS object has one entry
per key. -/
inductive JObject where
  | nil
  | cons (key : String) (val : JValue) (rest : JObject)

end

/-- JS truthiness of a `JValue` (undefined is modelled as `null`;
objects and arrays are always truthy, NaN does not arise for integers). -/
def truthy : JValue → Bool
  | .null => false
  | .bool b => b
  | .num n => n != 0
  | .str s => s != ""
  | .arr _ => true
  | .obj _ => true

/-- JS string coercion of a non-array `JValue`: null renders as the word
null, booleans and integers decimally, a string as itself, an object as
[object Object]. The array arm is never consulted (`jsToString` joins
arrays itself). -/
def basicJsString : JValue → String
  | .null => "null"
  | .bool true => "true"
  | .bool false => "false"
  | .num n => toString n
  | .str s => s
  | .obj _ => "[object Object]"
  | .arr _ => ""

/-- Joins strings with commas (Array.prototype.join with the default
separator). -/
def joinComma : List String → String
  | [] => ""
  | [x] => x
  | x :: rest@(_ :: _) => x ++ "," ++ joinComma rest

mutual

/-- The strings an array element contributes to Array.prototype.toString:
null renders empty, a nested nonempty array contributes its own joined
elements, a nested empty array one empty string, anything else its JS
string coercion. -/
def elemStrings : JValue → List String
  | .null => [""]
  | .arr .nil => [""]
  | .arr xs@(.cons _ _) => arrStrings xs
  | v => [basicJsString v]

/-- The element strings of a whole array, in order. -/
def arrStrings : JArray → List String
  | .nil => []
  | .cons v tail => elemStrings v ++ arrStrings tail

end

/-- JS string coercion of a `JValue`, as performed by the `Error`
constructor on its message argument; an array renders as its element
strings joined by commas. -/
def jsToString : JValue → String
  | .arr xs => joinComma (arrStrings xs)
  | v => basicJsString v

/-- Looks a key up in an object field list (a parsed object has one
entry per key). -/
def jObjGet : JObject → String → Option JValue
  | .nil, _ => none
  | .cons k v rest, key => if k = key then some v else jObjGet rest key

/-- JS property access `v[k]` on a parsed payload: the field of an object
when present, `null`-like (undefined, equally falsy) otherwise. -/
def jsField (v : JValue) (k : String) : JValue :=
  match v with
  | .obj fs => (jObjGet fs k).getD .null
  | _ => .null

/-- Whether `pat` is a prefix of `s` (over character lists). -/
def charsLeading : List Char → List Char → Bool
  | [], _ => true
  | _ :: _, [] => false
  | a :: as, b :: bs => a == b && charsLeading as bs

/-- Whether `pat` occurs as a contiguous run inside `s`. -/
def charsIncludes (pat : List Char) : List Char → Bool
  | [] => charsLeading pat []
  | c :: rest => charsLeading pat (c :: rest) || charsIncludes pat rest

/-- JS `s.includes(pat)`: substring containment. -/
def strIncludes (s pat : String) : Bool := charsIncludes pat.data s.data

/-- What reading the body of one HTTP response yields, as the JS runtime
reports it: the stream may fail, or the body text parses as JSON to a
value, or it is text that does not parse as JSON. -/
inductive BodyRead where
  | failed
  | json (v : JValue)
  | text (s : String)

/-- One HTTP response: status code, the content-type header (the empty
string when the header is absent, mirroring the `|| ''` fallback in the
source), and the body. -/
structure Response where
  status : Nat
  contentType : String
  body : BodyRead

/-- Outcome of one `fetch` call: the promise rejects with a transport
error (e.g. a TypeError with the given message), or resolves to a
response. -/
inductive FetchOutcome where
  | networkError (msg : String)
  | response (r : Response)

/-- The `APIError` class of `app.js` (lines 216-223): message (a JS
string after the `Error` constructor coercion), HTTP status, and the
parsed payload stored in `data`. -/
structure APIError where
  message : String
  status : Nat
  data : JValue

/-- An error escaping `makeRequest`: either a thrown `APIError`, or the
transport error with which `fetch` rejected, rethrown as-is. -/
inductive ReqError where
  | api (e : APIError)
  | network (msg : String)

/-- Body-parsing step of `makeRequest` (app.js lines 181-193): if the
content-type includes application/json, `response.json()` with a catch
to null; otherwise read text and best-effort `JSON.parse`, falling back
to the raw text, with an empty or unreadable text yielding null. -/
def parsePayload (contentType : String) (body : BodyRead) : JValue :=
  if strIncludes contentType ("application/json") then
    match body with
    | .json v => v
    | _ => .null
  else
    match body with
    | .failed => .null
    | .json v => v
    | .text s => if s = "" then .null else .str s

/-- The error message computed at app.js line 196:
`(payload && payload.error) ? payload.error : ⟨Server error status⟩`. -/
def errorMessage (payload : JValue) (status : Nat) : String :=
  if truthy payload && truthy (jsField payload ("error")) then
    jsToString (jsField payload ("error"))
  else
    "Server error " ++ toString status

/-- The predicate of app.js line 202: the caught error is an `APIError`
with status in [400, 500). -/
def isClientError : ReqError → Bool
  | .api e => decide (400 ≤ e.status) && decide (e.status < 500)
  | .network _ => false

/-- Body of one iteration of the retry loop (app.js lines 179-200):
fetch, parse the payload, throw an `APIError` when `response.ok` is
false (status outside [200,300)), otherwise return the payload. -/
def attemptOnce (outcome : FetchOutcome) : Except ReqError JValue :=
  match outcome with
  | .networkError msg => .error (.network msg)
  | .response r =>
    let payload := parsePayload r.contentType r.body
    if 200 ≤ r.status ∧ r.status < 300 then
      .ok payload
    else
      .error (.api ⟨errorMessage payload r.status, r.status, payload⟩)

/-- Observable trace of one `makeRequest` call: its result, the list of
backoff sleeps performed (in milliseconds, in order), and the number of
fetch attempts performed. -/
structure ReqTrace where
  result : Except ReqError JValue
  sleeps : List Nat
  attemptsUsed : Nat

/-- The retry loop of `makeRequest` (app.js lines 178-208). `attempt` is
the current loop index, `remaining` the number of further attempts still
allowed (`retryAttempts - attempt` in the source); a 4xx `APIError` is
rethrown immediately, any other error is rethrown when attempts are
exhausted and otherwise retried after sleeping
`retryDelay * (attempt + 1)` milliseconds. -/
def runAttempts (retryDelay : Nat) (env : Nat → FetchOutcome) : Nat → Nat → ReqTrace
  | attempt, 0 =>
    match attemptOnce (env attempt) with
    | .ok v => ⟨.ok v, [], 1⟩
    | .error e => ⟨.error e, [], 1⟩
  | attempt, r + 1 =>
    match attemptOnce (env attempt) with
    | .ok v => ⟨.ok v, [], 1⟩
    | .error e =>
      if isClientError e then ⟨.error e, [], 1⟩
      else
        let rest := runAttempts retryDelay env (attempt + 1) r
        ⟨rest.result, retryDelay * (attempt + 1) :: rest.sleeps, rest.attemptsUsed + 1⟩

/-- The `window.location` fields read by `detectBaseURL`. -/
structure Location where
  protocol : String
  hostname : String
  port : String
  origin : String

/-- `APIManager.detectBaseURL` (app.js lines 151-157). -/
def detectBaseURL (loc : Location) : String :=
  if loc.hostname = "localhost" ∨ loc.hostname = "127.0.0.1"
      ∨ strIncludes loc.hostname ("192.168.") then
    loc.protocol ++ "//" ++ loc.hostname ++ ":"
      ++ (if loc.port = "" then "5000" else loc.port)
  else
    loc.origin

/-- The fields of an `APIManager` instance. -/
structure APIManager where
  baseURL : String
  retryAttempts : Nat
  retryDelay : Nat

/-- The `APIManager` constructor (app.js lines 145-149). -/
def APIManager.new (loc : Location) : APIManager :=
  { baseURL := detectBaseURL loc, retryAttempts := 2, retryDelay := 1000 }

/-- A request body: either a `FormData` (binary form) value or a string
(e.g. the result of JSON.stringify). -/
inductive BodyVal where
  | formData
  | str (s : String)

/-- The options bag passed to `makeRequest`: an absent `method`, `headers`
or `body` key is `none` / the empty list. A headers object is represented
as an association list; a well-formed JS object has no duplicate keys. -/
structure RequestOptions where
  method : Option String := none
  headers : List (String × String) := []
  body : Option BodyVal := none

/-- JS object property assignment `m[k] = v` (also one step of object
spread): overwrite the existing entry in place, else append. -/
def objSet (m : List (String × String)) (k v : String) : List (String × String) :=
  if m.any (fun p => p.1 = k) then
    m.map (fun p => if p.1 = k then (k, v) else p)
  else
    m ++ [(k, v)]

/-- JS object spread `⟨...a, ...b⟩`: entries of `b` assigned over `a`. -/
def objMerge (a b : List (String × String)) : List (String × String) :=
  b.foldl (fun acc p => objSet acc p.1 p.2) a

/-- JS `delete m[k]`. -/
def objDelete (m : List (String × String)) (k : String) : List (String × String) :=
  m.filter (fun p => p.1 ≠ k)

/-- JS object property read as an option (for stating header presence). -/
def objGet (m : List (String × String)) (k : String) : Option String :=
  (m.find? (fun p => p.1 = k)).map Prod.snd

/-- The default headers of `makeRequest` (app.js lines 164-166). -/
def defaultHeaders : List (String × String) :=
  [("Accept", "application/json"), ("Content-Type", "application/json")]

/-- Whether `finalOptions.body instanceof FormData` holds. -/
def isFormData : Option BodyVal → Bool
  | some .formData => true
  | _ => false

/-- The headers of `finalOptions` as passed to `fetch` (app.js lines
162-176): default headers spread with the caller headers (line 167),
re-merged with the caller headers (line 172), and with the Content-Type
entry deleted when the body is a FormData (lines 174-176). -/
def finalHeaders (opts : RequestOptions) : List (String × String) :=
  let defHdrs := objMerge defaultHeaders opts.headers
  let merged := objMerge defHdrs opts.headers
  if isFormData opts.body then objDelete merged ("Content-Type") else merged

/-- The method of `finalOptions`: the caller method when supplied, else
the default GET (app.js lines 162-171). -/
def finalMethod (opts : RequestOptions) : String := opts.method.getD ("GET")

/-- The request `fetch` is called with on every attempt of one
`makeRequest` call: url (app.js line 160), merged method and headers,
and the caller body. -/
structure FetchCall where
  url : String
  method : String
  headers : List (String × String)
  body : Option BodyVal

/-- Builds the fetch call of app.js lines 160-176. -/
def buildFetchCall (mgr : APIManager) (endpoint : String) (opts : RequestOptions) : FetchCall :=
  { url := mgr.baseURL ++ "/api"
      ++ (if endpoint.startsWith ("/") then endpoint else "/" ++ endpoint)
  , method := finalMethod opts
  , headers := finalHeaders opts
  , body := opts.body }

/-- `APIManager.makeRequest` (app.js lines 159-209): builds the request,
runs the retry loop against the fetch environment, and returns the
(unchanged) instance state, which the method never writes. -/
def APIManager.makeRequest (mgr : APIManager) (endpoint : String)
    (opts : RequestOptions) (env : Nat → FetchOutcome) :
    FetchCall × ReqTrace × APIManager :=
  (buildFetchCall mgr endpoint opts, runAttempts mgr.retryDelay env 0 mgr.retryAttempts, mgr)

/-- Claim-side (spec-worded) header merge for the refinement statement of
the header claim: the default headers overridden key-by-key by the caller
headers, the caller winning on every conflicting key. -/
def headerMergeSpec (opts : RequestOptions) (k : String) : Option String :=
  match objGet opts.headers k with
  | some v => some v
  | none => objGet defaultHeaders k

/-- A transient failure in the sense of the retry claims: the fetch
rejects at the transport level, or the response status is at least 500. -/
def transientFailure : FetchOutcome → Bool
  | .networkError _ => true
  | .response r => decide (500 ≤ r.status)

/-- Whether the trace result is a thrown `APIError` (as opposed to a
rethrown transport error or a success). -/
def resultIsAPIError (t : ReqTrace) : Bool :=
  match t.result with
  | .error (.api _) => true
  | _ => false

/-- The localized UI strings of one entry of `ENHANCED_LANGUAGE_CONFIG`. -/
structure LangUI where
  chatPlaceholder : String
  analyzeText : String
  analyzeDocument : String
  listening : String
  voiceNotSupported : String
  speakingRate : String

/-- One entry of `ENHANCED_LANGUAGE_CONFIG` (app.js lines 34-80). -/
structure LangConfig where
  name : String
  nativeName : String
  code : String
  voice : String
  rtl : Bool
  ui : LangUI

/-- The `ENHANCED_LANGUAGE_CONFIG` object of app.js lines 34-80, as the
map from a key to its entry (`none` models an absent property). -/
def ENHANCED_LANGUAGE_CONFIG (k : String) : Option LangConfig :=
  if k = "en" then
    some { name := "English", nativeName := "English", code := "en-US"
         , voice := "en-US", rtl := false
         , ui := { chatPlaceholder := "Ask about legal terms, clauses, or analysis results..."
                 , analyzeText := "Analyze Text"
                 , analyzeDocument := "Analyze Document"
                 , listening := "Listening..."
                 , voiceNotSupported := "Voice input not supported in this browser"
                 , speakingRate := "Normal speed" } }
  else if k = "hi" then
    some { name := "Hindi", nativeName := "हिंदी", code := "hi-IN"
         , voice := "hi-IN", rtl := false
         , ui := { chatPlaceholder := "कानूनी शब्दों, धाराओं या विश्लेषण के बारे में पूछें..."
                 , analyzeText := "पाठ का विश्लेषण करें"
                 , analyzeDocument := "दस्तावेज़ का विश्लेषण करें"
                 , listening := "सुन रहा है..."
                 , voiceNotSupported := "इस ब्राउज़र में वॉइस इनपुट समर्थित नहीं है"
                 , speakingRate := "सामान्य गति" } }
  else if k = "ta" then
    some { name := "Tamil", nativeName := "தமிழ்", code := "ta-IN"
         , voice := "ta-IN", rtl := false
         , ui := { chatPlaceholder := "சட்ட விதிமுறைகள், பிரிவுகள் அல்லது பகுப்பாய்வு பற்றி கேளுங்கள்..."
                 , analyzeText := "உரையை பகுப்பாய்வு செய்யுங்கள்"
                 , analyzeDocument := "ஆவணத்தை பகுப்பாய்வு செய்யுங்கள்"
                 , listening := "கேட்டுக்கொண்டிருக்கிறது..."
                 , voiceNotSupported := "இந்த உலாவியில் குரல் உள்ளீடு ஆதரிக்கப்படவில்லை"
                 , speakingRate := "சாதாரண வேகம்" } }
  else
    none

/-- Whether a language code is an own key of `ENHANCED_LANGUAGE_CONFIG`
(en, hi or ta). -/
def supportedLang (k : String) : Bool := (ENHANCED_LANGUAGE_CONFIG k).isSome

/-- The property names every plain JS object inherits from the standard
browser Object.prototype. The config object is a plain object literal, so
a bracket lookup `ENHANCED_LANGUAGE_CONFIG[k]` at any of these names
yields the inherited member (a function, or Object.prototype itself for
the proto accessor) instead of undefined, and that value is truthy. -/
def OBJECT_PROTOTYPE_KEYS : List String :=
  ["constructor", "hasOwnProperty", "isPrototypeOf", "propertyIsEnumerable",
   "toLocaleString", "toString", "valueOf", "__proto__",
   "__defineGetter__", "__defineSetter__", "__lookupGetter__", "__lookupSetter__"]

/-- What the JS bracket lookup `ENHANCED_LANGUAGE_CONFIG[k]` yields: an
own property (one of the language entries) for en/hi/ta, a truthy member
inherited from Object.prototype for the prototype member names, and
undefined for every other key. -/
inductive ConfigLookup where
  | ownConfig (c : LangConfig)
  | inherited
  | undefinedVal

/-- The bracket lookup on the config literal, prototype chain included. -/
def configLookup (k : String) : ConfigLookup :=
  match ENHANCED_LANGUAGE_CONFIG k with
  | some c => .ownConfig c
  | none => if k ∈ OBJECT_PROTOTYPE_KEYS then .inherited else .undefinedVal

/-- JS truthiness of the looked-up value: own entries are objects and
inherited members are functions (or Object.prototype), all truthy;
undefined is falsy. -/
def lookupTruthy : ConfigLookup → Bool
  | .ownConfig _ => true
  | .inherited => true
  | .undefinedVal => false

/-- Completion of a JS call that can throw: a returned value, or a
thrown TypeError. -/
inductive JsResult (α : Type) where
  | value (a : α)
  | thrown
deriving DecidableEq

/-- The state of a `LanguageManager` instance observable by the claims:
its `currentLanguage` field. DOM updates and registered callbacks are
out of the modelled state. -/
structure LanguageManager where
  currentLanguage : String
deriving DecidableEq

/-- `updateAllLanguageSettings` (app.js lines 259-266) as observed by the
claims: the DOM element writes are guarded, but line 264 evaluates
`config.code.split` unconditionally, where config is the bracket lookup
of the current language; for an own entry this completes, while an
inherited Object.prototype member (whose code field is undefined) or an
undefined config makes it throw a TypeError. -/
def updateAllLanguageSettings (currentLanguage : String) : JsResult Unit :=
  match configLookup currentLanguage with
  | .ownConfig _ => .value ()
  | _ => .thrown

/-- The `LanguageManager` constructor together with
`initializeFromStorage` (app.js lines 229-241): `currentLanguage` starts
as en; a stored value (`stored` is the content of the myvakeel_language
local-storage key, `none` when absent) is adopted exactly when it is
truthy and its bracket lookup is truthy - which holds for the own keys
AND for inherited Object.prototype member names; the constructor then
runs `updateAllLanguageSettings` on the adopted value, which throws when
that value is not an own key. -/
def LanguageManager.init (stored : Option String) : LanguageManager × JsResult Unit :=
  match stored with
  | some s =>
    if s ≠ "" ∧ lookupTruthy (configLookup s) = true then
      (⟨s⟩, updateAllLanguageSettings s)
    else
      (⟨"en"⟩, updateAllLanguageSettings ("en"))
  | none => (⟨"en"⟩, updateAllLanguageSettings ("en"))

/-- `LanguageManager.changeLanguage` (app.js lines 243-257) under the
bracket-lookup semantics, returning the updated manager state, the
updated stored preference, and the call completion: a falsy (undefined)
lookup returns false before any mutation; a truthy lookup assigns
`currentLanguage` and persists it to local storage, then runs
`updateAllLanguageSettings`, which completes (so the call returns true)
for an own key and throws for an inherited Object.prototype member name,
leaving the mutations in place. -/
def LanguageManager.changeLanguage (lm : LanguageManager) (stored : Option String)
    (langCode : String) : LanguageManager × Option String × JsResult Bool :=
  match configLookup langCode with
  | .undefinedVal => (lm, stored, .value false)
  | .ownConfig _ => (⟨langCode⟩, some langCode, .value true)
  | .inherited => (⟨langCode⟩, some langCode, .thrown)

/-! Concrete fixtures used by the scenario parts, counterexamples and
witnesses of the claim theorems. -/

/-- A location resolving to a plain https origin. -/
def loc0 : Location :=
  { protocol := "https:", hostname := "lawbuddy.example", port := ""
  , origin := "https://lawbuddy.example" }

/-- The default options bag (a bare GET request). -/
def opts0 : RequestOptions := {}

/-- A 503 response with an empty non-JSON body. -/
def resp503 : Response := { status := 503, contentType := "text/html", body := .text ("oops") }

/-- A 200 JSON response whose body is the object with success set true. -/
def respOk : Response :=
  { status := 200, contentType := "application/json"
  , body := .json (.obj (.cons ("success") (.bool true) .nil)) }

/-- Fetch environment of the retry scenario: 503, 503, then 200. -/
def envScenario : Nat → FetchOutcome := fun n =>
  if n = 0 then .response resp503
  else if n = 1 then .response resp503
  else .response respOk

/-- Fetch environment in which every attempt fails at the transport. -/
def envNet : Nat → FetchOutcome := fun _ => .networkError ("Failed to fetch")

/-- A 400 response whose JSON body has an empty-string error field. -/
def respEmptyErr : Response :=
  { status := 400, contentType := "application/json"
  , body := .json (.obj (.cons ("error") (.str "") .nil)) }

/-- Fetch environment returning the empty-error 400 response. -/
def envEmptyErr : Nat → FetchOutcome := fun _ => .response respEmptyErr

/-- A 400 response whose JSON body carries the error message bad email. -/
def respBadEmail : Response :=
  { status := 400, contentType := "application/json"
  , body := .json (.obj (.cons ("error") (.str "bad email") .nil)) }

/-- Fetch environment returning the bad-email 400 response. -/
def envBadEmail : Nat → FetchOutcome := fun _ => .response respBadEmail

/-- A 200 response that declares JSON but whose body does not parse. -/
def respBadJson : Response :=
  { status := 200, contentType := "application/json", body := .text ("not-json") }

/-- Fetch environment returning the unparseable JSON 200 response. -/
def envBadJson : Nat → FetchOutcome := fun _ => .response respBadJson

/-- A 200 plain-text response with an empty body text. -/
def respEmptyText : Response :=
  { status := 200, contentType := "text/plain", body := .text ("") }

/-- Fetch environment returning the empty-text 200 response. -/
def envEmptyText : Nat → FetchOutcome := fun _ => .response respEmptyText

/-- Options whose body is a FormData and whose caller headers carry an
explicit Content-Type entry. -/
def optsForm : RequestOptions :=
  { method := some ("POST")
  , headers := [("User-Email", "a@b.c"), ("Content-Type", "text/plain")]
  , body := some .formData }

/-- Options with a JSON string body and a caller Accept override. -/
def optsJson : RequestOptions :=
  { method := some ("POST")
  , headers := [("Accept", "text/html")]
  , body := some (.str ("[1]")) }

/-- Fetch environment returning the 200 success response every time. -/
def envOk : Nat → FetchOutcome := fun _ => .response respOk

/-- A 200 plain-text response with a nonempty non-JSON body. -/
def respText : Response :=
  { status := 200, contentType := "text/plain", body := .text ("hello") }

/-- Fetch environment returning the plain-text 200 response. -/
def envText : Nat → FetchOutcome := fun _ => .response respText

/-- A 500 response declaring JSON whose body read fails. -/
def respFailedJson : Response :=
  { status := 500, contentType := "application/json", body := .failed }

/-- Fetch environment returning the failed-body 500 response. -/
def envFailedJson : Nat → FetchOutcome := fun _ => .response respFailedJson

/-! Helper lemmas about the header-object operations and the retry loop. -/

lemma objGet_cons (p : String × String) (m : List (String × String)) (k : String) :
    objGet (p :: m) k = if p.1 = k then some p.2 else objGet m k := by
  by_cases h : p.1 = k <;> simp [objGet, List.find?_cons, h]

lemma objGet_map_ne (m : List (String × String)) (k v k' : String) (h : k' ≠ k) :
    objGet (m.map (fun p => if p.1 = k then (k, v) else p)) k' = objGet m k' := by
  induction m with
  | nil => rfl
  | cons p m ih =>
    by_cases hp : p.1 = k
    · simp [hp, objGet_cons, ih, Ne.symm h]
    · simp [hp, objGet_cons, ih]

lemma objGet_map_self (m : List (String × String)) (k v : String)
    (h : m.any (fun q => q.1 = k) = true) :
    objGet (m.map (fun p => if p.1 = k then (k, v) else p)) k = some v := by
  induction m with
  | nil => cases h
  | cons p m ih =>
    by_cases hp : p.1 = k
    · simp [hp, objGet_cons]
    · have h' : m.any (fun q => q.1 = k) = true := by
        simpa [List.any_cons, hp] using h
      simp [hp, objGet_cons, ih h']

lemma objGet_append (m l : List (String × String)) (k : String) :
    objGet (m ++ l) k = (objGet m k).or (objGet l k) := by
  simp only [objGet, List.find?_append]
  cases List.find? (fun p => decide (p.1 = k)) m <;> simp

lemma objGet_any_false (m : List (String × String)) (k : String)
    (h : m.any (fun q => q.1 = k) = false) : objGet m k = none := by
  induction m with
  | nil => rfl
  | cons p m ih =>
    rw [List.any_cons, Bool.or_eq_false_iff] at h
    have hp : ¬p.1 = k := of_decide_eq_false h.1
    rw [objGet_cons, if_neg hp, ih h.2]

lemma objGet_objSet (m : List (String × String)) (k v k' : String) :
    objGet (objSet m k v) k' = if k' = k then some v else objGet m k' := by
  unfold objSet
  by_cases hm : m.any (fun q => q.1 = k) = true
  · rw [if_pos hm]
    by_cases h : k' = k
    · subst h; rw [if_pos rfl, objGet_map_self m k' v hm]
    · rw [if_neg h, objGet_map_ne m k v k' h]
  · have hm' : m.any (fun q => q.1 = k) = false := Bool.eq_false_iff.mpr hm
    rw [if_neg hm, objGet_append]
    by_cases h : k' = k
    · subst h
      rw [objGet_any_false m k' hm']
      simp [objGet_cons, objGet]
    · rw [if_neg h]
      have h1 : objGet [(k, v)] k' = none := by
        simp [objGet_cons, objGet, Ne.symm h]
      rw [h1]
      cases objGet m k' <;> rfl

lemma objGet_objMerge_none (a b : List (String × String)) (k : String)
    (h : objGet b k = none) : objGet (objMerge a b) k = objGet a k := by
  induction b generalizing a with
  | nil => rfl
  | cons p b ih =>
    rw [objGet_cons] at h
    by_cases hp : p.1 = k
    · rw [if_pos hp] at h; cases h
    · rw [if_neg hp] at h
      show objGet (objMerge (objSet a p.1 p.2) b) k = objGet a k
      rw [ih _ h, objGet_objSet, if_neg (fun hh : k = p.1 => hp hh.symm)]

lemma objGet_objMerge_isSome (a b : List (String × String)) (k : String)
    (h : (objGet a k).isSome = true) : (objGet (objMerge a b) k).isSome = true := by
  induction b generalizing a with
  | nil => exact h
  | cons p b ih =>
    show (objGet (objMerge (objSet a p.1 p.2) b) k).isSome = true
    apply ih
    rw [objGet_objSet]
    by_cases hk : k = p.1
    · rw [if_pos hk]; rfl
    · rw [if_neg hk]; exact h

lemma objGet_objMerge (a b : List (String × String)) (k : String)
    (hnd : (b.map Prod.fst).Nodup) :
    objGet (objMerge a b) k = (objGet b k).elim (objGet a k) some := by
  induction b generalizing a with
  | nil => rfl
  | cons p b ih =>
    rw [List.map_cons, List.nodup_cons] at hnd
    show objGet (objMerge (objSet a p.1 p.2) b) k = _
    rw [ih _ hnd.2, objGet_objSet, objGet_cons]
    by_cases hk : p.1 = k
    · subst hk
      have hb : objGet b p.1 = none := by
        apply objGet_any_false
        rw [List.any_eq_false]
        intro q hq hq2
        exact hnd.1 (List.mem_map.mpr ⟨q, hq, of_decide_eq_true hq2⟩)
      simp [hb]
    · rw [if_neg hk, if_neg (fun hh : k = p.1 => hk hh.symm)]

lemma objGet_objDelete_self (m : List (String × String)) (k : String) :
    objGet (objDelete m k) k = none := by
  induction m with
  | nil => rfl
  | cons p m ih =>
    simp only [objDelete] at ih ⊢
    rw [List.filter_cons]
    by_cases hp : p.1 = k
    · rw [if_neg (by simp [hp])]
      exact ih
    · rw [if_pos (by simp [hp]), objGet_cons, if_neg hp]
      exact ih

lemma objGet_objDelete_ne (m : List (String × String)) (k k' : String) (h : k' ≠ k) :
    objGet (objDelete m k) k' = objGet m k' := by
  induction m with
  | nil => rfl
  | cons p m ih =>
    simp only [objDelete] at ih ⊢
    rw [List.filter_cons]
    by_cases hp : p.1 = k
    · have hne : ¬p.1 = k' := by rw [hp]; exact Ne.symm h
      rw [if_neg (by simp [hp]), objGet_cons, if_neg hne]
      exact ih
    · rw [if_pos (by simp [hp]), objGet_cons, objGet_cons]
      by_cases hk : p.1 = k'
      · rw [if_pos hk, if_pos hk]
      · rw [if_neg hk, if_neg hk]; exact ih

/-- A transient failure makes one attempt throw a non-client error. -/
lemma attemptOnce_transient (o : FetchOutcome) (h : transientFailure o = true) :
    ∃ e, attemptOnce o = .error e ∧ isClientError e = false := by
  cases o with
  | networkError m => exact ⟨.network m, rfl, rfl⟩
  | response r =>
    have hs : 500 <= r.status := by simpa [transientFailure] using h
    refine ⟨.api ⟨errorMessage (parsePayload r.contentType r.body) r.status, r.status,
      parsePayload r.contentType r.body⟩, ?_, ?_⟩
    · simp [attemptOnce, show ¬(200 <= r.status ∧ r.status < 300) by omega]
    · simp [isClientError]
      omega

/-- C1: whenever every attempt fails at the transport level or with status
at least 500, `makeRequest` on a constructor-built instance performs 3
attempts (retryAttempts 2 plus one), sleeps 1000 then 2000 milliseconds
before the two retries, and fails with the error of the final attempt; and
in the 503, 503, then 200 scenario it returns the parsed success object
after exactly the two backoff waits. -/
theorem claim_C1_retry_backoff :
    (∀ (loc : Location) (ep : String) (opts : RequestOptions) (env : Nat → FetchOutcome),
      (∀ n, n < 3 → transientFailure (env n) = true) →
      ∃ e, attemptOnce (env 2) = .error e ∧
        ((APIManager.new loc).makeRequest ep opts env).2.1 = ⟨.error e, [1000, 2000], 3⟩)
    ∧ ∀ (loc : Location) (ep : String) (opts : RequestOptions),
      ((APIManager.new loc).makeRequest ep opts envScenario).2.1 =
        ⟨.ok (.obj (.cons ("success") (.bool true) .nil)), [1000, 2000], 3⟩ := by
  constructor
  · intro loc ep opts env h
    obtain ⟨e0, he0, hc0⟩ := attemptOnce_transient (env 0) (h 0 (by omega))
    obtain ⟨e1, he1, hc1⟩ := attemptOnce_transient (env 1) (h 1 (by omega))
    obtain ⟨e2, he2, hc2⟩ := attemptOnce_transient (env 2) (h 2 (by omega))
    refine ⟨e2, he2, ?_⟩
    simp [APIManager.makeRequest, APIManager.new, runAttempts, he0, hc0, he1, hc1, he2, hc2]
  · intro loc ep opts
    rfl

/-- C1 witness: with every attempt a transport failure, the call fails with
the final transport error after sleeps of 1000 and 2000 milliseconds. -/
theorem claim_C1_retry_backoff_witness :
    ∃ e, attemptOnce (envNet 2) = .error e ∧
      ((APIManager.new loc0).makeRequest ("/health") opts0 envNet).2.1 =
        ⟨.error e, [1000, 2000], 3⟩ :=
  claim_C1_retry_backoff.1 loc0 ("/health") opts0 envNet (fun _ _ => rfl)

/-- C2 counterexample: a 400 response whose JSON body has an empty-string
error field yields the generic Server error 400 message rather than the
(present) error field, so the message rule of the claim fails as stated. -/
theorem claim_C2_counterexample :
    ((APIManager.new loc0).makeRequest ("/register") opts0 envEmptyErr).2.1 =
      ⟨.error (.api ⟨"Server error 400", 400, .obj (.cons ("error") (.str "") .nil)⟩), [], 1⟩
    ∧ ((APIManager.new loc0).makeRequest ("/register") opts0 envEmptyErr).2.1.result ≠
      .error (.api ⟨"", 400, .obj (.cons ("error") (.str "") .nil)⟩) := by
  refine ⟨rfl, ?_⟩
  intro h
  rw [show ((APIManager.new loc0).makeRequest ("/register") opts0 envEmptyErr).2.1.result =
      Except.error (ReqError.api ⟨"Server error 400", 400,
        .obj (.cons ("error") (.str "") .nil)⟩) from rfl] at h
  injection h with h1
  injection h1 with h2
  injection h2 with hm hs hd
  exact absurd hm (by decide)

/-- C2 amended: every 4xx response on the first attempt makes makeRequest
fail after exactly one attempt with no backoff wait, throwing the APIError
carrying the status and parsed payload, whose message is the payload error
field when that field is present and truthy (in particular a nonempty
string), and the generic Server error message otherwise. -/
theorem claim_C2_amended :
    ∀ (loc : Location) (ep : String) (opts : RequestOptions) (env : Nat → FetchOutcome)
      (r : Response), env 0 = .response r → 400 ≤ r.status → r.status < 500 →
      (((APIManager.new loc).makeRequest ep opts env).2.1 =
        ⟨.error (.api ⟨errorMessage (parsePayload r.contentType r.body) r.status, r.status,
          parsePayload r.contentType r.body⟩), [], 1⟩)
      ∧ (∀ v, jsField (parsePayload r.contentType r.body) ("error") = v → truthy v = true →
          errorMessage (parsePayload r.contentType r.body) r.status = jsToString v)
      ∧ ((truthy (parsePayload r.contentType r.body) &&
            truthy (jsField (parsePayload r.contentType r.body) ("error"))) = false →
          errorMessage (parsePayload r.contentType r.body) r.status =
            "Server error " ++ toString r.status) := by
  intro loc ep opts env r henv h4 h5
  have hok : ¬(200 ≤ r.status ∧ r.status < 300) := by omega
  have h1 : attemptOnce (env 0) =
      .error (.api ⟨errorMessage (parsePayload r.contentType r.body) r.status, r.status,
        parsePayload r.contentType r.body⟩) := by
    rw [henv]; simp [attemptOnce, hok]
  have hc : isClientError (.api ⟨errorMessage (parsePayload r.contentType r.body) r.status,
      r.status, parsePayload r.contentType r.body⟩) = true := by
    simp [isClientError]; omega
  refine ⟨?_, ?_, ?_⟩
  · simp [APIManager.makeRequest, APIManager.new, runAttempts, h1, hc]
  · intro v hv htr
    have hto : truthy (parsePayload r.contentType r.body) = true := by
      cases hpl : parsePayload r.contentType r.body <;>
        first
        | rfl
        | (exfalso; rw [hpl] at hv; simp [jsField] at hv; subst hv; simp [truthy] at htr)
    simp [errorMessage, hv, hto, htr]
  · intro hff
    simp [errorMessage, hff]

/-- C2 amended witness: the bad-email 400 scenario fails on the first
attempt with message bad email, status 400, no retry. -/
theorem claim_C2_amended_witness :
    ((APIManager.new loc0).makeRequest ("/register") opts0 envBadEmail).2.1 =
      ⟨.error (.api ⟨errorMessage (parsePayload respBadEmail.contentType respBadEmail.body) 400,
        400, parsePayload respBadEmail.contentType respBadEmail.body⟩), [], 1⟩
    ∧ errorMessage (parsePayload respBadEmail.contentType respBadEmail.body) 400 =
        "bad email" := by
  have h := claim_C2_amended loc0 ("/register") opts0 envBadEmail respBadEmail rfl
    (by decide) (by decide)
  exact ⟨h.1, (h.2.1 (.str ("bad email")) rfl rfl).trans rfl⟩

/-- C3 counterexample: with every attempt a transport failure, makeRequest
surfaces the rethrown transport error itself, which is not an APIError,
refuting the claim that exhausted transport failures surface as the same
typed error object used for non-2xx responses. -/
theorem claim_C3_counterexample :
    ((APIManager.new loc0).makeRequest ("/health") opts0 envNet).2.1 =
      ⟨.error (.network ("Failed to fetch")), [1000, 2000], 3⟩
    ∧ resultIsAPIError ((APIManager.new loc0).makeRequest ("/health") opts0 envNet).2.1 =
        false :=
  ⟨rfl, rfl⟩

/-- C3 amended: after exhausting its retries against transport failures,
makeRequest rethrows the final transport error unwrapped; the typed
APIError (message, status, payload) is produced exactly by non-2xx HTTP
responses. -/
theorem claim_C3_amended :
    (∀ (loc : Location) (ep : String) (opts : RequestOptions) (msgs : Nat → String),
      ((APIManager.new loc).makeRequest ep opts (fun n => .networkError (msgs n))).2.1 =
        ⟨.error (.network (msgs 2)), [1000, 2000], 3⟩)
    ∧ ∀ (env : Nat → FetchOutcome) (r : Response), env 0 = .response r →
        ¬(200 ≤ r.status ∧ r.status < 300) →
        attemptOnce (env 0) =
          .error (.api ⟨errorMessage (parsePayload r.contentType r.body) r.status,
            r.status, parsePayload r.contentType r.body⟩) := by
  constructor
  · intro loc ep opts msgs
    simp [APIManager.makeRequest, APIManager.new, runAttempts, attemptOnce, isClientError]
  · intro env r henv hok
    rw [henv]
    simp [attemptOnce, hok]

/-- C3 amended witness: the first scenario attempt (a 503 response) throws
the typed APIError with its parsed payload. -/
theorem claim_C3_amended_witness :
    attemptOnce (envScenario 0) =
      .error (.api ⟨errorMessage (parsePayload resp503.contentType resp503.body) 503, 503,
        parsePayload resp503.contentType resp503.body⟩) :=
  claim_C3_amended.2 envScenario resp503 rfl (by decide)

/-- C4 counterexample: a 200 response that declares a JSON content type but
whose body does not parse makes makeRequest return null, not the raw body
text, so the payload description of the claim fails as stated. -/
theorem claim_C4_counterexample :
    ((APIManager.new loc0).makeRequest ("/health") opts0 envBadJson).2.1 = ⟨.ok .null, [], 1⟩
    ∧ ((APIManager.new loc0).makeRequest ("/health") opts0 envBadJson).2.1.result ≠
        .ok (.str ("not-json")) := by
  refine ⟨rfl, ?_⟩
  intro h
  rw [show ((APIManager.new loc0).makeRequest ("/health") opts0 envBadJson).2.1.result =
      Except.ok JValue.null from rfl] at h
  injection h with h1
  cases h1

/-- C4 amended: every 2xx response makes makeRequest return its parsed
payload after exactly one attempt with no retry and no backoff wait; the
payload is the JSON value when the body parses as JSON, the raw text when
the response does not declare JSON and the body is nonempty unparseable
text, and null when the body is unreadable, empty, or declared JSON but
unparseable. -/
theorem claim_C4_amended :
    ∀ (loc : Location) (ep : String) (opts : RequestOptions) (env : Nat → FetchOutcome)
      (r : Response), env 0 = .response r → 200 ≤ r.status → r.status < 300 →
      (((APIManager.new loc).makeRequest ep opts env).2.1 =
        ⟨.ok (parsePayload r.contentType r.body), [], 1⟩)
      ∧ (∀ v, r.body = .json v → parsePayload r.contentType r.body = v)
      ∧ (∀ s, r.body = .text s → strIncludes r.contentType ("application/json") = false →
          s ≠ "" → parsePayload r.contentType r.body = .str s)
      ∧ (∀ s, r.body = .text s → strIncludes r.contentType ("application/json") = true →
          parsePayload r.contentType r.body = .null)
      ∧ (r.body = .failed → parsePayload r.contentType r.body = .null)
      ∧ (∀ s, r.body = .text s → s = "" → parsePayload r.contentType r.body = .null) := by
  intro loc ep opts env r henv h2 h3
  have h1 : attemptOnce (env 0) = .ok (parsePayload r.contentType r.body) := by
    rw [henv]; simp [attemptOnce, h2, h3]
  refine ⟨?_, ?_, ?_, ?_, ?_, ?_⟩
  · simp [APIManager.makeRequest, APIManager.new, runAttempts, h1]
  · intro v hv
    simp [parsePayload, hv]
  · intro s hs hin hne
    simp [parsePayload, hs, hin, hne]
  · intro s hs hin
    simp [parsePayload, hs, hin]
  · intro hf
    simp [parsePayload, hf]
  · intro s hs hse
    simp [parsePayload, hs, hse]

/-- C4 amended witness: the 200 JSON success response returns its parsed
object after one attempt with no waits. -/
theorem claim_C4_amended_witness :
    ((APIManager.new loc0).makeRequest ("/health") opts0 envOk).2.1 =
      ⟨.ok (parsePayload respOk.contentType respOk.body), [], 1⟩
    ∧ parsePayload respOk.contentType respOk.body =
        .obj (.cons ("success") (.bool true) .nil) := by
  have h := claim_C4_amended loc0 ("/health") opts0 envOk respOk rfl (by decide) (by decide)
  exact ⟨h.1, h.2.1 (.obj (.cons ("success") (.bool true) .nil)) rfl⟩

/-- C5: the headers passed to fetch are the merged finalHeaders; a FormData
body strips the Content-Type entry even when the caller supplied one
explicitly, and a non-FormData body always carries a Content-Type entry,
equal to application/json when the caller supplied none. -/
theorem claim_C5_formdata_content_type :
    ∀ (loc : Location) (ep : String) (opts : RequestOptions) (env : Nat → FetchOutcome),
      (((APIManager.new loc).makeRequest ep opts env).1.headers = finalHeaders opts)
      ∧ (isFormData opts.body = true →
          objGet (finalHeaders opts) ("Content-Type") = none)
      ∧ (isFormData opts.body = false →
          (objGet (finalHeaders opts) ("Content-Type")).isSome = true
          ∧ (objGet opts.headers ("Content-Type") = none →
              objGet (finalHeaders opts) ("Content-Type") = some ("application/json"))) := by
  intro loc ep opts env
  refine ⟨rfl, ?_, ?_⟩
  · intro hf
    have hform : finalHeaders opts =
        objDelete (objMerge (objMerge defaultHeaders opts.headers) opts.headers)
          ("Content-Type") := by
      simp [finalHeaders, hf]
    rw [hform]
    exact objGet_objDelete_self _ _
  · intro hf
    have hform : finalHeaders opts =
        objMerge (objMerge defaultHeaders opts.headers) opts.headers := by
      simp [finalHeaders, hf]
    constructor
    · rw [hform]
      exact objGet_objMerge_isSome _ _ _ (objGet_objMerge_isSome _ _ _ (by rfl))
    · intro hnone
      rw [hform, objGet_objMerge_none _ _ _ hnone, objGet_objMerge_none _ _ _ hnone]
      rfl

/-- C5 witness: a FormData request with a caller Content-Type sends none,
and a bare GET request sends the default application/json. -/
theorem claim_C5_formdata_content_type_witness :
    objGet (finalHeaders optsForm) ("Content-Type") = none
    ∧ objGet (finalHeaders opts0) ("Content-Type") = some ("application/json") :=
  ⟨(claim_C5_formdata_content_type loc0 ("/x") optsForm envNet).2.1 rfl,
   ((claim_C5_formdata_content_type loc0 ("/x") opts0 envNet).2.2 rfl).2 rfl⟩

/-- C6 counterexample: a 200 plain-text response with an empty body (whose
text does not parse as JSON) makes makeRequest return null, not the raw
empty text, so the claim fails as stated on empty bodies. -/
theorem claim_C6_counterexample :
    ((APIManager.new loc0).makeRequest ("/health") opts0 envEmptyText).2.1 =
      ⟨.ok .null, [], 1⟩
    ∧ ((APIManager.new loc0).makeRequest ("/health") opts0 envEmptyText).2.1.result ≠
        .ok (.str ("")) := by
  refine ⟨rfl, ?_⟩
  intro h
  rw [show ((APIManager.new loc0).makeRequest ("/health") opts0 envEmptyText).2.1.result =
      Except.ok JValue.null from rfl] at h
  injection h with h1
  cases h1

/-- C6 amended: for a response that does not declare JSON and whose body is
text not parseable as JSON, the payload is the raw text when it is nonempty
and null when it is empty; a 2xx such response returns that payload after
one attempt, a non-2xx one attaches it to the thrown APIError, and parsing
alone never fails the call (success is decided by the status only). -/
theorem claim_C6_amended :
    ∀ (loc : Location) (ep : String) (opts : RequestOptions) (env : Nat → FetchOutcome)
      (r : Response) (s : String), env 0 = .response r →
      strIncludes r.contentType ("application/json") = false → r.body = .text s →
      (s ≠ "" → parsePayload r.contentType r.body = .str s)
      ∧ (s = "" → parsePayload r.contentType r.body = .null)
      ∧ (200 ≤ r.status → r.status < 300 →
          ((APIManager.new loc).makeRequest ep opts env).2.1 =
            ⟨.ok (parsePayload r.contentType r.body), [], 1⟩)
      ∧ (¬(200 ≤ r.status ∧ r.status < 300) →
          attemptOnce (env 0) =
            .error (.api ⟨errorMessage (parsePayload r.contentType r.body) r.status, r.status,
              parsePayload r.contentType r.body⟩)) := by
  intro loc ep opts env r s henv hct hb
  refine ⟨?_, ?_, ?_, ?_⟩
  · intro hne
    simp [parsePayload, hct, hb, hne]
  · intro hse
    simp [parsePayload, hct, hb, hse]
  · intro h2 h3
    have h1 : attemptOnce (env 0) = .ok (parsePayload r.contentType r.body) := by
      rw [henv]; simp [attemptOnce, h2, h3]
    simp [APIManager.makeRequest, APIManager.new, runAttempts, h1]
  · intro hok
    rw [henv]
    simp [attemptOnce, hok]

/-- C6 amended witness: a 200 text/plain response with body hello returns
the raw string hello after one attempt. -/
theorem claim_C6_amended_witness :
    parsePayload respText.contentType respText.body = .str ("hello")
    ∧ ((APIManager.new loc0).makeRequest ("/health") opts0 envText).2.1 =
        ⟨.ok (parsePayload respText.contentType respText.body), [], 1⟩ := by
  have h := claim_C6_amended loc0 ("/health") opts0 envText respText ("hello") rfl rfl rfl
  exact ⟨h.1 (by decide), h.2.2.1 (by decide) (by decide)⟩

/-- C7 counterexample: on a FormData call the Content-Type entry is deleted
from the outgoing headers, so they are not the default headers overridden
key-by-key by the caller headers (which here supply text/plain). -/
theorem claim_C7_counterexample :
    objGet (finalHeaders optsForm) ("Content-Type") = none
    ∧ headerMergeSpec optsForm ("Content-Type") = some ("text/plain")
    ∧ objGet (finalHeaders optsForm) ("Content-Type") ≠
        headerMergeSpec optsForm ("Content-Type") := by
  refine ⟨rfl, rfl, ?_⟩
  intro h
  rw [show objGet (finalHeaders optsForm) ("Content-Type") = none from rfl,
      show headerMergeSpec optsForm ("Content-Type") = some ("text/plain") from rfl] at h
  cases h

/-- C7 amended: for every call whose body is not FormData the outgoing
headers agree key-by-key with the default headers overridden by the caller
headers (the caller winning on conflicts, defaults surviving otherwise);
for a FormData body the same merge holds except that the Content-Type
entry is absent; the method defaults to GET when the caller supplies
none. -/
theorem claim_C7_amended :
    (∀ (loc : Location) (ep : String) (opts : RequestOptions) (env : Nat → FetchOutcome)
       (k : String), (opts.headers.map Prod.fst).Nodup → isFormData opts.body = false →
        objGet (((APIManager.new loc).makeRequest ep opts env).1.headers) k =
          headerMergeSpec opts k)
    ∧ (∀ (opts : RequestOptions) (k : String), (opts.headers.map Prod.fst).Nodup →
        isFormData opts.body = true →
        objGet (finalHeaders opts) k =
          if k = "Content-Type" then none else headerMergeSpec opts k)
    ∧ (∀ opts : RequestOptions, opts.method = none → finalMethod opts = "GET")
    ∧ (∀ (loc : Location) (ep : String) (opts : RequestOptions) (env : Nat → FetchOutcome),
        ((APIManager.new loc).makeRequest ep opts env).1.method = finalMethod opts) := by
  refine ⟨?_, ?_, ?_, fun _ _ _ _ => rfl⟩
  · intro loc ep opts env k hnd hf
    show objGet (finalHeaders opts) k = headerMergeSpec opts k
    have hform : finalHeaders opts =
        objMerge (objMerge defaultHeaders opts.headers) opts.headers := by
      simp [finalHeaders, hf]
    rw [hform, objGet_objMerge _ _ _ hnd, objGet_objMerge _ _ _ hnd]
    unfold headerMergeSpec
    cases objGet opts.headers k <;> rfl
  · intro opts k hnd hf
    have hform : finalHeaders opts =
        objDelete (objMerge (objMerge defaultHeaders opts.headers) opts.headers)
          ("Content-Type") := by
      simp [finalHeaders, hf]
    rw [hform]
    by_cases hk : k = "Content-Type"
    · rw [if_pos hk, hk]
      exact objGet_objDelete_self _ _
    · rw [if_neg hk, objGet_objDelete_ne _ _ _ hk, objGet_objMerge _ _ _ hnd,
        objGet_objMerge _ _ _ hnd]
      unfold headerMergeSpec
      cases objGet opts.headers k <;> rfl
  · intro opts h
    simp [finalMethod, h]

/-- C7 amended witness: the caller Accept override wins in a non-FormData
call, and the bare options default to the GET method. -/
theorem claim_C7_amended_witness :
    objGet (((APIManager.new loc0).makeRequest ("/x") optsJson envNet).1.headers) ("Accept") =
      headerMergeSpec optsJson ("Accept")
    ∧ finalMethod opts0 = "GET" :=
  ⟨claim_C7_amended.1 loc0 ("/x") optsJson envNet ("Accept") (by decide) rfl,
   claim_C7_amended.2.2.1 opts0 rfl⟩

/-- C8: makeRequest returns the instance state unchanged, and a
constructor-built instance has retryAttempts 2, retryDelay 1000 and the
baseURL detected from the location, so the fields persist across any
sequence of calls. -/
theorem claim_C8_no_mutation :
    (∀ (mgr : APIManager) (ep : String) (opts : RequestOptions) (env : Nat → FetchOutcome),
      (mgr.makeRequest ep opts env).2.2 = mgr)
    ∧ (∀ loc : Location, (APIManager.new loc).retryAttempts = 2
        ∧ (APIManager.new loc).retryDelay = 1000
        ∧ (APIManager.new loc).baseURL = detectBaseURL loc) :=
  ⟨fun _ _ _ _ => rfl, fun _ => ⟨rfl, rfl, rfl⟩⟩

/-- C9: a response that declares a JSON content type but whose body is not
a parsed JSON value yields the payload null: a 2xx such response makes
makeRequest return null after one attempt, and a non-2xx one throws the
APIError with the generic Server error message and payload null. -/
theorem claim_C9_json_unparseable_null :
    ∀ (loc : Location) (ep : String) (opts : RequestOptions) (env : Nat → FetchOutcome)
      (r : Response), env 0 = .response r →
      strIncludes r.contentType ("application/json") = true →
      (∀ v, r.body ≠ .json v) →
      (parsePayload r.contentType r.body = .null)
      ∧ (200 ≤ r.status → r.status < 300 →
          ((APIManager.new loc).makeRequest ep opts env).2.1 = ⟨.ok .null, [], 1⟩)
      ∧ (¬(200 ≤ r.status ∧ r.status < 300) →
          attemptOnce (env 0) =
            .error (.api ⟨"Server error " ++ toString r.status, r.status, .null⟩)) := by
  intro loc ep opts env r henv hct hnj
  have hnull : parsePayload r.contentType r.body = .null := by
    cases hb : r.body with
    | failed => simp [parsePayload, hct]
    | json v => exact absurd hb (hnj v)
    | text s => simp [parsePayload, hct]
  refine ⟨hnull, ?_, ?_⟩
  · intro h2 h3
    have h1 : attemptOnce (env 0) = .ok .null := by
      rw [henv]; simp [attemptOnce, h2, h3, hnull]
    simp [APIManager.makeRequest, APIManager.new, runAttempts, h1]
  · intro hok
    rw [henv]
    simp [attemptOnce, hok, hnull, errorMessage, truthy, jsField]

/-- C9 witness: the unparseable JSON 200 response returns null after one
attempt, and the failed-body JSON 500 response throws Server error 500
with payload null. -/
theorem claim_C9_json_unparseable_null_witness :
    ((APIManager.new loc0).makeRequest ("/health") opts0 envBadJson).2.1 = ⟨.ok .null, [], 1⟩
    ∧ attemptOnce (envFailedJson 0) =
        .error (.api ⟨"Server error 500", 500, .null⟩) := by
  have h1 := claim_C9_json_unparseable_null loc0 ("/health") opts0 envBadJson respBadJson
    rfl rfl (fun v h => by simp [respBadJson] at h)
  have h2 := claim_C9_json_unparseable_null loc0 ("/health") opts0 envFailedJson respFailedJson
    rfl rfl (fun v h => by simp [respFailedJson] at h)
  exact ⟨h1.2.1 (by decide) (by decide), h2.2.2 (by decide)⟩

/-- C10 counterexample: at the inherited Object.prototype member name
toString the truthiness guard of changeLanguage passes, so the call does
not return false: it mutates currentLanguage and the stored preference to
toString (not a key of ENHANCED_LANGUAGE_CONFIG) and then throws from
updateAllLanguageSettings; initializeFromStorage likewise adopts such a
stored value. This refutes the claimed invariant and the unsupported-code
conjunct as stated. -/
theorem claim_C10_counterexample :
    LanguageManager.changeLanguage ⟨"en"⟩ none ("toString") =
      (⟨"toString"⟩, some ("toString"), .thrown)
    ∧ LanguageManager.changeLanguage ⟨"en"⟩ none ("toString") ≠ (⟨"en"⟩, none, .value false)
    ∧ supportedLang
        (LanguageManager.changeLanguage ⟨"en"⟩ none ("toString")).1.currentLanguage = false
    ∧ (LanguageManager.init (some ("toString"))).1.currentLanguage = "toString"
    ∧ (LanguageManager.init (some ("toString"))).2 = .thrown :=
  ⟨rfl, by decide, rfl, rfl, rfl⟩

/-- C10 amended: currentLanguage starts as en. The truthiness guard on
the bracket lookup passes not only for the own keys en, hi and ta but
also for inherited Object.prototype member names. A langCode whose
lookup is undefined (neither kind) makes changeLanguage return false
with currentLanguage and the stored preference unchanged; an own key is
assigned, persisted and the call returns true; an inherited member name
is assigned and persisted and the call then throws instead of
returning, and initializeFromStorage adopts such a stored value (and
the constructor then throws). Hence currentLanguage is always an own
key or an inherited Object.prototype member name, and it is an own key
after every call that completed without throwing; the own keys are
exactly en, hi and ta. -/
theorem claim_C10_language_keys :
    ((LanguageManager.init none) = (⟨"en"⟩, .value ()))
    ∧ (∀ stored : Option String,
        supportedLang (LanguageManager.init stored).1.currentLanguage = true
        ∨ (LanguageManager.init stored).1.currentLanguage ∈ OBJECT_PROTOTYPE_KEYS)
    ∧ (∀ stored : Option String, (LanguageManager.init stored).2 = .value () →
        supportedLang (LanguageManager.init stored).1.currentLanguage = true)
    ∧ (∀ (lm : LanguageManager) (stored : Option String) (lang : String),
        lookupTruthy (configLookup lang) = false →
        LanguageManager.changeLanguage lm stored lang = (lm, stored, .value false))
    ∧ (∀ (lm : LanguageManager) (stored : Option String) (lang : String),
        supportedLang lang = true →
        LanguageManager.changeLanguage lm stored lang = (⟨lang⟩, some lang, .value true))
    ∧ (∀ (lm : LanguageManager) (stored : Option String) (lang : String),
        supportedLang lang = false → lang ∈ OBJECT_PROTOTYPE_KEYS →
        LanguageManager.changeLanguage lm stored lang = (⟨lang⟩, some lang, .thrown))
    ∧ (∀ (lm : LanguageManager) (stored : Option String) (lang : String),
        (LanguageManager.changeLanguage lm stored lang).2.2 = .value true →
        supportedLang
          (LanguageManager.changeLanguage lm stored lang).1.currentLanguage = true)
    ∧ (∀ k : String, supportedLang k = true ↔ (k = "en" ∨ k = "hi" ∨ k = "ta")) := by
  refine ⟨rfl, ?_, ?_, ?_, ?_, ?_, ?_, ?_⟩
  · intro stored
    cases stored with
    | none => exact Or.inl rfl
    | some s =>
      simp only [LanguageManager.init]
      split
      · next h =>
        cases hc : ENHANCED_LANGUAGE_CONFIG s with
        | some c => exact Or.inl (by simp [supportedLang, hc])
        | none =>
          right
          have ht := h.2
          by_cases hp : s ∈ OBJECT_PROTOTYPE_KEYS
          · exact hp
          · simp [configLookup, hc, hp, lookupTruthy] at ht
      · exact Or.inl rfl
  · intro stored
    cases stored with
    | none => intro _; rfl
    | some s =>
      simp only [LanguageManager.init]
      split
      · next hcond =>
        intro h
        cases hc : ENHANCED_LANGUAGE_CONFIG s with
        | some c => simp [supportedLang, hc]
        | none =>
          exfalso
          by_cases hp : s ∈ OBJECT_PROTOTYPE_KEYS <;>
            simp [updateAllLanguageSettings, configLookup, hc, hp] at h
      · intro _; rfl
  · intro lm stored lang h
    cases hc : configLookup lang with
    | undefinedVal => simp [LanguageManager.changeLanguage, hc]
    | ownConfig c => rw [hc] at h; simp [lookupTruthy] at h
    | inherited => rw [hc] at h; simp [lookupTruthy] at h
  · intro lm stored lang h
    cases hc : ENHANCED_LANGUAGE_CONFIG lang with
    | none => rw [supportedLang, hc] at h; cases h
    | some c => simp [LanguageManager.changeLanguage, configLookup, hc]
  · intro lm stored lang h hp
    cases hc : ENHANCED_LANGUAGE_CONFIG lang with
    | some c => rw [supportedLang, hc] at h; cases h
    | none => simp [LanguageManager.changeLanguage, configLookup, hc, hp]
  · intro lm stored lang h
    cases hc : configLookup lang with
    | undefinedVal => simp [LanguageManager.changeLanguage, hc] at h
    | inherited => simp [LanguageManager.changeLanguage, hc] at h
    | ownConfig c =>
      simp only [LanguageManager.changeLanguage, hc]
      rw [supportedLang]
      cases hE : ENHANCED_LANGUAGE_CONFIG lang with
      | some c2 => rfl
      | none =>
        by_cases hp : lang ∈ OBJECT_PROTOTYPE_KEYS <;>
          simp [configLookup, hE, hp] at hc
  · intro k
    constructor
    · intro h
      by_cases h1 : k = "en"
      · exact Or.inl h1
      by_cases h2 : k = "hi"
      · exact Or.inr (Or.inl h2)
      by_cases h3 : k = "ta"
      · exact Or.inr (Or.inr h3)
      exfalso
      rw [supportedLang] at h
      rw [show ENHANCED_LANGUAGE_CONFIG k = none by
        simp [ENHANCED_LANGUAGE_CONFIG, h1, h2, h3]] at h
      cases h
    · rintro (h | h | h) <;> subst h <;> rfl

/-- C10 witness: changing to the undefined code fr is rejected without
mutation, changing to hi succeeds and persists, changing to the
inherited member name valueOf mutates and throws, and a stored xx (an
undefined lookup) leaves the initial language the supported en. -/
theorem claim_C10_language_keys_witness :
    LanguageManager.changeLanguage ⟨"en"⟩ none ("fr") = (⟨"en"⟩, none, .value false)
    ∧ LanguageManager.changeLanguage ⟨"en"⟩ (some ("en")) ("hi") =
        (⟨"hi"⟩, some ("hi"), .value true)
    ∧ LanguageManager.changeLanguage ⟨"en"⟩ none ("valueOf") =
        (⟨"valueOf"⟩, some ("valueOf"), .thrown)
    ∧ supportedLang (LanguageManager.init (some ("xx"))).1.currentLanguage = true :=
  ⟨claim_C10_language_keys.2.2.2.1 ⟨"en"⟩ none ("fr") rfl,
   claim_C10_language_keys.2.2.2.2.1 ⟨"en"⟩ (some ("en")) ("hi") rfl,
   claim_C10_language_keys.2.2.2.2.2.1 ⟨"en"⟩ none ("valueOf") rfl (by decide),
   claim_C10_language_keys.2.2.1 (some ("xx")) rfl⟩

end LawBuddy
